import Mathlib

/-!
Verification of the monitoring-sender plugin (src/src/lib.rs) against its
specification.  The plugin distributes one stereo input to four auxiliary
stereo outputs, each scaled by its own gain parameter, leaving the main
output untouched.

Audio samples are embedded as exact rationals (the Rust code uses `f32`;
every claim treated here is about which samples are written and with which
multiplicative factor, not about rounding of the float arithmetic itself,
so the exact-arithmetic embedding is faithful to the data flow).  Buffers
are lists of stereo frames; writing into a host-provided buffer is modelled
by returning the buffer's new contents.  A Rust panic (the `unwrap` in the
per-sample loop) is modelled by `Option`: `none` is the panicking run.
-/

namespace MonitoringSenderLib

/-- A stereo frame: the (left, right) sample pair at one time index. -/
abbrev Frame := ℚ × ℚ

/-- nih_plug's `ProcessMode`, as consumed by the plugin. -/
inductive ProcessMode
  | Realtime
  | Buffered
  | Offline
deriving DecidableEq

/-- nih_plug's `ProcessStatus`, as produced by the plugin. -/
inductive ProcessStatus
  | Normal
  | Tail (samples : ℕ)
  | KeepAlive
deriving DecidableEq

/-- nih_plug's `BufferConfig` (the fields the plugin stores and reads).
The sample rate is an `f32` in the source; it is only stored, never
computed with, so a rational stands in for it. -/
structure BufferConfig where
  sample_rate : ℚ
  min_buffer_size : Option ℕ
  max_buffer_size : ℕ
  process_mode : ProcessMode
deriving DecidableEq

/-- `MonitoringSenderParams`: the four `FloatParam` gain controls, embedded
by the only datum `process` reads from them, their current plain value
(`FloatParam::value()`).  The range / formatter configuration attached to
each control lives in the nih_plug framework and is treated separately
(see the spec-modelled definitions further down). -/
structure MonitoringSenderParams where
  main_gain : ℚ
  ax_gain : ℚ
  sb_gain : ℚ
  vk_gain : ℚ
deriving DecidableEq

/-- `MonitoringSenderParams::default()`: every gain starts at
`util::db_to_gain(0.00)`, which is exactly unity. -/
def MonitoringSenderParams.default : MonitoringSenderParams :=
  { main_gain := 1, ax_gain := 1, sb_gain := 1, vk_gain := 1 }

/-- The plugin state: the parameter set and the stored buffer configuration. -/
structure MonitoringSender where
  params : MonitoringSenderParams
  buffer_config : BufferConfig
deriving DecidableEq

/-- `MonitoringSender::default()` from the source: default parameters and a
placeholder buffer configuration with `process_mode: Realtime`. -/
def MonitoringSender.default : MonitoringSender :=
  { params := MonitoringSenderParams.default
    buffer_config :=
      { sample_rate := 1
        min_buffer_size := none
        max_buffer_size := 0
        process_mode := ProcessMode.Realtime } }

/-- The source's `initialize` (that exact name is a Lean keyword): stores the
supplied configuration wholesale and returns `true`.  The layout and context
arguments are unused in the source (`_layout`, `_context`) and are omitted. -/
def initializeSender (self : MonitoringSender) (buffer_config : BufferConfig) :
    MonitoringSender × Bool :=
  ({ self with buffer_config := buffer_config }, true)

/-- `reset` from the source: a no-op. -/
def reset (self : MonitoringSender) : MonitoringSender := self

/-- The four auxiliary output buffers (`aux.outputs[0..3]`), stereo each. -/
structure AuxiliaryBuffers where
  out0 : List Frame
  out1 : List Frame
  out2 : List Frame
  out3 : List Frame
deriving DecidableEq

/-- The body of one `send_index` iteration of `process`: walk the main
buffer's frames, pulling the next frame of the auxiliary buffer for each
one (`send_1_buffer.next()`), and overwrite that auxiliary frame with
`input * gain` on each channel.  `none` models the `out1.unwrap()` panic
when the auxiliary iterator is exhausted before the main buffer is.
Auxiliary frames beyond the main buffer's length keep their old content. -/
def distribute (gain : ℚ) : List Frame → List Frame → Option (List Frame)
  | [], aux => some aux
  | _ :: _, [] => none
  | f :: main, _ :: aux =>
    (distribute gain main aux).map fun rest => (f.1 * gain, f.2 * gain) :: rest

/-- `process` from the source.  In `Offline` mode it returns immediately with
`ProcessStatus::Normal`.  Otherwise it snapshots the four gains and loops
`for send_index in 0..3` — the upper bound is exclusive, so only sends
0, 1 and 2 are written; `aux.out3` is returned untouched even though
`vk_gain` was read into the snapshot.  The main buffer is only read, never
written, and is returned unchanged.  A `none` result is a panicking run. -/
def process (self : MonitoringSender) (buffer : List Frame)
    (aux : AuxiliaryBuffers) :
    Option (List Frame × AuxiliaryBuffers × ProcessStatus) :=
  if self.buffer_config.process_mode = ProcessMode.Offline then
    some (buffer, aux, ProcessStatus.Normal)
  else
    let gains : List ℚ :=
      [self.params.main_gain, self.params.ax_gain,
       self.params.sb_gain, self.params.vk_gain]
    match distribute (gains.getD 0 0) buffer aux.out0 with
    | none => none
    | some o0 =>
      match distribute (gains.getD 1 0) buffer aux.out1 with
      | none => none
      | some o1 =>
        match distribute (gains.getD 2 0) buffer aux.out2 with
        | none => none
        | some o2 =>
          some (buffer,
                { out0 := o0, out1 := o1, out2 := o2, out3 := aux.out3 },
                ProcessStatus.Normal)

/-- Scaling a frame list by a gain, channelwise: the intended per-send
result of the distribution loop. -/
def scaleFrames (gain : ℚ) (frames : List Frame) : List Frame :=
  frames.map fun f => (f.1 * gain, f.2 * gain)

/-!
The gain controls' range, display and parsing behaviour is configured in
`MonitoringSenderParams::default` (`FloatRange::Skewed`,
`FloatRange::gain_skew_factor`, `formatters::v2s_f32_gain_to_db(2)`,
`formatters::s2v_f32_gain_to_db`, `util::db_to_gain`), but the bodies of
those functions live in the nih_plug framework, outside this repository.
The definitions below are therefore modelled from the specification's own
description of them (spec sections 3, 4.1 and 7) and are marked as such.
-/

/-- Modelled from the spec: the fractional-digit tail of a decimal number.
`parseFrac cs num den` consumes digit characters, accumulating the numerator
and the power-of-ten denominator; any non-digit character is a parse
failure. -/
def parseFrac : List Char → ℕ → ℕ → Option ℚ
  | [], num, den => some ((num : ℚ) / (den : ℚ))
  | c :: cs, num, den =>
    if c.isDigit then parseFrac cs (10 * num + (c.toNat - 48)) (10 * den)
    else none

/-- Modelled from the spec: the integer-part state of the decimal-number
grammar, entered after at least one digit has been read. -/
def parseIntPart : List Char → ℕ → Option ℚ
  | [], acc => some (acc : ℚ)
  | c :: cs, acc =>
    if c = '.' then
      (if cs = [] then none
       else (parseFrac cs 0 1).map fun f => (acc : ℚ) + f)
    else if c.isDigit then parseIntPart cs (10 * acc + (c.toNat - 48))
    else none

/-- Modelled from the spec: an unsigned decimal number, `digit+ (. digit*)?`
or `. digit+`; anything else is a parse failure. -/
def parseUnsigned : List Char → Option ℚ
  | [] => none
  | c :: cs =>
    if c = '.' then (if cs = [] then none else parseFrac cs 0 1)
    else if c.isDigit then parseIntPart cs (c.toNat - 48)
    else none

/-- Modelled from the spec: a decimal number with an optional leading sign. -/
def parseNumber (cs : List Char) : Option ℚ :=
  match cs with
  | [] => none
  | c :: rest =>
    if c = '-' then (parseUnsigned rest).map Neg.neg
    else if c = '+' then parseUnsigned rest
    else parseUnsigned (c :: rest)

/-- Leading-whitespace stripping used by the decibel-text parser. -/
def dropLeadingSpaces : List Char → List Char
  | [] => []
  | c :: cs => if c = ' ' then dropLeadingSpaces cs else c :: cs

/-- Strip the optional trailing " dB" unit (the reversed character list
starts with `B`, `d`).  The input is the reversed tail-trimmed text; the
output is still reversed. -/
def stripDbSuffix (cs : List Char) : List Char :=
  match dropLeadingSpaces cs.reverse with
  | c1 :: c2 :: rest =>
    if c1 = 'B' ∧ c2 = 'd' then dropLeadingSpaces rest else c1 :: c2 :: rest
  | rest => rest

/-- Modelled from the spec: the text-to-decibel parser behind nih_plug's
`formatters::s2v_f32_gain_to_db` (not part of this repository): trim
whitespace, drop an optional " dB" unit suffix, and parse a signed decimal
number; non-numeric text yields `none`.  The control's state is tracked in
decibel space (the decibel-to-amplitude conversion is a strictly monotone
bijection, so range clamping and round-trip error agree between the two
representations, and the decibel value is what the text denotes exactly). -/
def parseDb (s : String) : Option ℚ :=
  parseNumber (stripDbSuffix (dropLeadingSpaces s.toList)).reverse

/-- Modelled from the spec: the decibel bounds of every gain control are
fixed at −144 dB and +12 dB; a parsed value is clamped into that range. -/
def clampDb (d : ℚ) : ℚ := max (-144) (min 12 d)

/-- Modelled from the spec: the state of one gain control, tracked by the
decibel value its amplitude corresponds to. -/
structure GainControl where
  value_db : ℚ
deriving DecidableEq

/-- Modelled from the spec: applying nih_plug's `s2v_f32_gain_to_db`
formatter (configured in `MonitoringSenderParams::default`, body outside
this repository) to a control: on parse failure the control keeps its value
and failure is reported to the caller; on success the parsed value, clamped
to the control's valid range, is stored and success is reported. -/
def string_to_value (c : GainControl) (s : String) : GainControl × Bool :=
  match parseDb s with
  | none => (c, false)
  | some d => ({ value_db := clampDb d }, true)

/-- Modelled from the spec: rendering of a whole-cent decibel count as text
with two decimal digits and the " dB" unit, the shape produced by
`v2s_f32_gain_to_db(2)`. -/
def formatCents (cents : ℤ) : String :=
  let a := cents.natAbs
  String.mk
    (((if cents < 0 then ['-'] else []) ++ Nat.toDigits 10 (a / 100)) ++
      ('.' :: [Nat.digitChar (a / 10 % 10), Nat.digitChar (a % 10)]) ++
      [' ', 'd', 'B'])

/-- Modelled from the spec: nih_plug's `v2s_f32_gain_to_db(2)` display
formatter (body outside this repository), in decibel space: round the
decibel value to 2 decimal places and render it with the " dB" unit. -/
def formatDb (d : ℚ) : String := formatCents (round (100 * d))

/-- Modelled from the spec: `util::db_to_gain` (body outside this
repository), the linear amplitude of a decibel value, `10^(db/20)`. -/
noncomputable def db_to_gain (db : ℝ) : ℝ := (10 : ℝ) ^ (db / 20)

/-- The lower amplitude bound of every gain control, `db_to_gain(-144)`. -/
noncomputable def min_amplitude : ℝ := db_to_gain (-144)

/-- The upper amplitude bound of every gain control, `db_to_gain(12)`. -/
noncomputable def max_amplitude : ℝ := db_to_gain 12

/-- Modelled from the spec: `FloatRange::gain_skew_factor` (body outside
this repository) — the skew exponent chosen so that normalized input `0.5`
maps to the anchor decibel value's amplitude under the skewed
interpolation. -/
noncomputable def gain_skew_factor (anchorDb : ℝ) : ℝ :=
  Real.logb (1 / 2)
    ((db_to_gain anchorDb - min_amplitude) / (max_amplitude - min_amplitude))

/-- Modelled from the spec: the skewed normalized-to-amplitude mapping of a
gain control, `amp = min_amp + (max_amp - min_amp) * normalized ^ skew`. -/
noncomputable def amplitude (anchorDb n : ℝ) : ℝ :=
  min_amplitude + (max_amplitude - min_amplitude) * n ^ gain_skew_factor anchorDb

theorem distribute_eq_some (gain : ℚ) :
    ∀ (main aux : List Frame), main.length ≤ aux.length →
      distribute gain main aux =
        some (scaleFrames gain main ++ aux.drop main.length)
  | [], aux, _ => by simp [distribute, scaleFrames]
  | _ :: _, [], h => by simp at h
  | f :: main, a :: aux, h => by
    have h' : main.length ≤ aux.length := by
      simpa [Nat.succ_le_succ_iff] using h
    simp [distribute, distribute_eq_some gain main aux h', scaleFrames]

theorem distribute_eq_none (gain : ℚ) :
    ∀ (main aux : List Frame), aux.length < main.length →
      distribute gain main aux = none
  | [], _, h => by simp at h
  | _ :: _, [], _ => by simp [distribute]
  | _ :: main, _ :: aux, h => by
    have h' : aux.length < main.length := by
      simpa [Nat.succ_lt_succ_iff] using h
    simp [distribute, distribute_eq_none gain main aux h']

theorem distribute_isSome_iff (gain : ℚ) (main aux : List Frame) :
    (distribute gain main aux).isSome ↔ main.length ≤ aux.length := by
  constructor
  · intro h
    by_contra hlt
    rw [distribute_eq_none gain main aux (by omega)] at h
    simp at h
  · intro h
    rw [distribute_eq_some gain main aux h]
    simp

/-- Claim C2: when the stored processing mode is `Offline`, `process` leaves
all four auxiliary output buffers bit-identical to their pre-call contents
(and the main buffer untouched) and returns `ProcessStatus.Normal`. -/
theorem offline_process_is_noop (self : MonitoringSender) (buffer : List Frame)
    (aux : AuxiliaryBuffers)
    (h : self.buffer_config.process_mode = ProcessMode.Offline) :
    process self buffer aux = some (buffer, aux, ProcessStatus.Normal) := by
  simp [process, h]

theorem offline_process_is_noop_witness :
    process
      { MonitoringSender.default with
        buffer_config :=
          { sample_rate := 1, min_buffer_size := none, max_buffer_size := 0,
            process_mode := ProcessMode.Offline } }
      [(1, 2)] ⟨[(3, 4)], [], [(5, 6)], [(7, 8)]⟩
    = some ([(1, 2)], ⟨[(3, 4)], [], [(5, 6)], [(7, 8)]⟩, ProcessStatus.Normal) :=
  offline_process_is_noop _ _ _ rfl

/-- Claim C3: whenever `process` returns (in either mode), the main
input/output buffer comes back unchanged: the pass-through path is never
attenuated or otherwise modified. -/
theorem process_preserves_main_output (self : MonitoringSender)
    (buffer : List Frame) (aux : AuxiliaryBuffers)
    (out : List Frame × AuxiliaryBuffers × ProcessStatus)
    (h : process self buffer aux = some out) : out.1 = buffer := by
  unfold process at h
  split at h
  · rw [← Option.some.inj h]
  · simp only [List.getD_cons_zero, List.getD_cons_succ] at h
    cases hd0 : distribute self.params.main_gain buffer aux.out0 with
    | none => rw [hd0] at h; simp at h
    | some o0 =>
      rw [hd0] at h
      cases hd1 : distribute self.params.ax_gain buffer aux.out1 with
      | none => rw [hd1] at h; simp at h
      | some o1 =>
        rw [hd1] at h
        cases hd2 : distribute self.params.sb_gain buffer aux.out2 with
        | none => rw [hd2] at h; simp at h
        | some o2 =>
          rw [hd2] at h
          simp only [Option.some.injEq] at h
          rw [← h]

theorem process_preserves_main_output_witness :
    (([(1, 2)], (⟨[(1, 2)], [(1, 2)], [(1, 2)], [(9, 9)]⟩ : AuxiliaryBuffers),
       ProcessStatus.Normal) :
        List Frame × AuxiliaryBuffers × ProcessStatus).1 = [(1, 2)] :=
  process_preserves_main_output MonitoringSender.default [(1, 2)]
    ⟨[(0, 0)], [(0, 0)], [(0, 0)], [(9, 9)]⟩ _
    (by norm_num [process, distribute, MonitoringSender.default,
      MonitoringSenderParams.default]; decide)

/-- Claim C4: on well-formed buffers (each touched auxiliary buffer at least
as long as the main buffer) and in any processing mode, `process` returns
`ProcessStatus.Normal`; no error status exists on any path. -/
theorem process_returns_normal_status (self : MonitoringSender)
    (buffer : List Frame) (aux : AuxiliaryBuffers)
    (h0 : buffer.length ≤ aux.out0.length)
    (h1 : buffer.length ≤ aux.out1.length)
    (h2 : buffer.length ≤ aux.out2.length) :
    ∃ outs, process self buffer aux =
      some (buffer, outs, ProcessStatus.Normal) := by
  have e0 := distribute_eq_some self.params.main_gain buffer aux.out0 h0
  have e1 := distribute_eq_some self.params.ax_gain buffer aux.out1 h1
  have e2 := distribute_eq_some self.params.sb_gain buffer aux.out2 h2
  unfold process
  split
  · exact ⟨aux, rfl⟩
  · refine ⟨⟨scaleFrames self.params.main_gain buffer ++
        List.drop buffer.length aux.out0,
      scaleFrames self.params.ax_gain buffer ++
        List.drop buffer.length aux.out1,
      scaleFrames self.params.sb_gain buffer ++
        List.drop buffer.length aux.out2,
      aux.out3⟩, ?_⟩
    simp [e0, e1, e2]

theorem process_returns_normal_status_witness :
    ∃ outs, process MonitoringSender.default [(1, 2)]
      ⟨[(0, 0)], [(0, 0)], [(0, 0)], [(9, 9)]⟩
      = some ([(1, 2)], outs, ProcessStatus.Normal) :=
  process_returns_normal_status _ _ _ (by decide) (by decide) (by decide)

/-- Claim C5: `initialize` stores the host-supplied buffer configuration
wholesale (the parameters are untouched, the previous configuration is fully
replaced) and always returns `true`; rejection never occurs. -/
theorem initializeSender_stores_config_and_accepts (self : MonitoringSender)
    (bc : BufferConfig) :
    initializeSender self bc =
      ({ params := self.params, buffer_config := bc }, true) := rfl

/-- Claim C9: in `Realtime` mode, `process` reaches the panicking `unwrap`
exactly when one of the auxiliary buffers it touches (sends 0, 1, 2) is
shorter than the main buffer; when each touched buffer has at least as many
frames as the main buffer the `unwrap` never observes `None` and `process`
completes. -/
theorem realtime_unwrap_none_iff_short_aux (self : MonitoringSender)
    (buffer : List Frame) (aux : AuxiliaryBuffers)
    (h : self.buffer_config.process_mode = ProcessMode.Realtime) :
    process self buffer aux = none ↔
      aux.out0.length < buffer.length ∨ aux.out1.length < buffer.length ∨
        aux.out2.length < buffer.length := by
  have hmode : ¬ self.buffer_config.process_mode = ProcessMode.Offline := by
    rw [h]; intro hc; cases hc
  unfold process
  simp only [if_neg hmode]
  rcases Nat.lt_or_ge aux.out0.length buffer.length with h0 | h0
  · rw [distribute_eq_none _ _ _ h0]
    simp [h0]
  · rw [distribute_eq_some _ _ _ h0]
    rcases Nat.lt_or_ge aux.out1.length buffer.length with h1 | h1
    · rw [distribute_eq_none _ _ _ h1]
      simp [h1]
    · rw [distribute_eq_some _ _ _ h1]
      rcases Nat.lt_or_ge aux.out2.length buffer.length with h2 | h2
      · rw [distribute_eq_none _ _ _ h2]
        simp [h2]
      · rw [distribute_eq_some _ _ _ h2]
        simp
        omega

theorem realtime_unwrap_none_iff_short_aux_witness :
    process MonitoringSender.default [(1, 1)] ⟨[], [(0, 0)], [(0, 0)], []⟩
      = none :=
  (realtime_unwrap_none_iff_short_aux MonitoringSender.default [(1, 1)]
    ⟨[], [(0, 0)], [(0, 0)], []⟩ rfl).mpr (Or.inl (by decide))

/-- Claim C10: a default-constructed plugin holds the buffer configuration
sample rate 1.0, no minimum buffer size, maximum buffer size 0 and mode
`Realtime`, so a `process` call made before any `initialize` takes the
Realtime distribution path (writing the auxiliary sends at the default unity
gains) rather than the Offline no-op. -/
theorem default_instance_realtime_distributes :
    MonitoringSender.default.buffer_config =
      { sample_rate := 1, min_buffer_size := none, max_buffer_size := 0,
        process_mode := ProcessMode.Realtime } ∧
    process MonitoringSender.default [(1, 1), (2, -2)]
      ⟨[(9, 9), (9, 9)], [(9, 9), (9, 9)], [(9, 9), (9, 9)], [(9, 9), (9, 9)]⟩
    = some ([(1, 1), (2, -2)],
        ⟨[(1, 1), (2, -2)], [(1, 1), (2, -2)], [(1, 1), (2, -2)],
         [(9, 9), (9, 9)]⟩,
        ProcessStatus.Normal) := by
  refine ⟨rfl, ?_⟩
  norm_num [process, distribute, MonitoringSender.default,
    MonitoringSenderParams.default]
  decide

/-- Claim C1 (code bug): in `Realtime` mode the claimed write
`output[3][i] = input[i] * gain_snapshot[3]` does not happen.  The loop
`for send_index in 0..3` has an exclusive upper bound, so only sends 0, 1, 2
are written: with input frame `(1, 1)`, Volki gain `2` and auxiliary buffers
pre-filled with `(5, 5)`, sends 0..2 receive the scaled input but send 3
keeps its stale `(5, 5)` frame instead of the claimed `(2, 2)`. -/
theorem process_leaves_fourth_send_unwritten :
    process
      { params := { main_gain := 1, ax_gain := 1, sb_gain := 1, vk_gain := 2 },
        buffer_config := MonitoringSender.default.buffer_config }
      [(1, 1)] ⟨[(5, 5)], [(5, 5)], [(5, 5)], [(5, 5)]⟩
    = some ([(1, 1)], ⟨[(1, 1)], [(1, 1)], [(1, 1)], [(5, 5)]⟩,
        ProcessStatus.Normal) ∧
    ((5 : ℚ), (5 : ℚ)) ≠ ((1 : ℚ) * 2, (1 : ℚ) * 2) := by
  constructor
  · norm_num [process, distribute, MonitoringSender.default]
    decide
  · norm_num

/-- Claim C6: text that does not parse as a decibel value makes the
text-to-value operation report failure and leaves the control's value
unchanged; a successfully parsed value is stored clamped to the control's
valid range (−144 dB .. +12 dB). -/
theorem string_to_value_atomic_and_clamped (c : GainControl) (s : String) :
    (parseDb s = none → string_to_value c s = (c, false)) ∧
    (∀ d, parseDb s = some d →
      string_to_value c s = ({ value_db := clampDb d }, true) ∧
      -144 ≤ clampDb d ∧ clampDb d ≤ 12) := by
  constructor
  · intro h
    simp [string_to_value, h]
  · intro d h
    refine ⟨by simp [string_to_value, h], le_max_left _ _, ?_⟩
    exact max_le (by norm_num) (min_le_left _ _)

theorem db_to_gain_pos (db : ℝ) : 0 < db_to_gain db :=
  Real.rpow_pos_of_pos (by norm_num) _

theorem db_to_gain_lt_db_to_gain {a b : ℝ} (h : a < b) :
    db_to_gain a < db_to_gain b :=
  Real.rpow_lt_rpow_of_exponent_lt (by norm_num) (by linarith)

/-- Claim C7: the normalized-to-amplitude mapping is monotonically
non-decreasing on `[0, 1]`, takes the value `min_amplitude`
(the linear amplitude of −144 dB) at 0, `max_amplitude` (the linear
amplitude of +12 dB) at 1, and the anchor decibel value's amplitude exactly
at 0.5, for any anchor strictly inside the decibel range. -/
theorem amplitude_monotone_and_anchored (anchorDb : ℝ)
    (hlo : -144 < anchorDb) (hhi : anchorDb < 12) :
    (∀ n m : ℝ, 0 ≤ n → n ≤ m → m ≤ 1 →
      amplitude anchorDb n ≤ amplitude anchorDb m) ∧
    amplitude anchorDb 0 = min_amplitude ∧
    amplitude anchorDb 1 = max_amplitude ∧
    amplitude anchorDb (1 / 2) = db_to_gain anchorDb := by
  have hA1 : min_amplitude < db_to_gain anchorDb := db_to_gain_lt_db_to_gain hlo
  have hA2 : db_to_gain anchorDb < max_amplitude := db_to_gain_lt_db_to_gain hhi
  have hMm : (0 : ℝ) < max_amplitude - min_amplitude := by linarith
  have hr0 : 0 <
      (db_to_gain anchorDb - min_amplitude) / (max_amplitude - min_amplitude) :=
    div_pos (by linarith) hMm
  have hr1 :
      (db_to_gain anchorDb - min_amplitude) / (max_amplitude - min_amplitude)
        < 1 :=
    (div_lt_one hMm).mpr (by linarith)
  have hskew : 0 < gain_skew_factor anchorDb := by
    unfold gain_skew_factor
    exact Real.logb_pos_of_base_lt_one (by norm_num) (by norm_num) hr0 hr1
  refine ⟨?_, ?_, ?_, ?_⟩
  · intro n m hn hnm _
    unfold amplitude
    have hpow := Real.rpow_le_rpow hn hnm hskew.le
    have := mul_le_mul_of_nonneg_left hpow hMm.le
    linarith
  · unfold amplitude
    rw [Real.zero_rpow hskew.ne']
    ring
  · unfold amplitude
    rw [Real.one_rpow]
    ring
  · unfold amplitude gain_skew_factor
    rw [Real.rpow_logb (by norm_num) (by norm_num) hr0]
    field_simp

theorem amplitude_monotone_and_anchored_witness :
    (∀ n m : ℝ, 0 ≤ n → n ≤ m → m ≤ 1 →
      amplitude (-6) n ≤ amplitude (-6) m) ∧
    amplitude (-6) 0 = min_amplitude ∧
    amplitude (-6) 1 = max_amplitude ∧
    amplitude (-6) (1 / 2) = db_to_gain (-6) :=
  amplitude_monotone_and_anchored (-6) (by norm_num) (by norm_num)

/-- Claim C8: for the representative decibel values −144.00, −24.00, 0.00,
6.00 and 12.00 dB, formatting to two-decimal decibel text and parsing the
text back reproduces the value within 0.01 dB (here: exactly). -/
theorem db_text_roundtrip_representative :
    (∃ q, parseDb (formatDb (-144)) = some q ∧ |q - (-144)| ≤ 1 / 100) ∧
    (∃ q, parseDb (formatDb (-24)) = some q ∧ |q - (-24)| ≤ 1 / 100) ∧
    (∃ q, parseDb (formatDb 0) = some q ∧ |q - 0| ≤ 1 / 100) ∧
    (∃ q, parseDb (formatDb 6) = some q ∧ |q - 6| ≤ 1 / 100) ∧
    (∃ q, parseDb (formatDb 12) = some q ∧ |q - 12| ≤ 1 / 100) := by
  have h1 : formatDb (-144) = "-144.00 dB" := by
    unfold formatDb
    rw [show round (100 * (-144 : ℚ)) = -14400 from by norm_num [round_eq]]
    decide
  have h2 : formatDb (-24) = "-24.00 dB" := by
    unfold formatDb
    rw [show round (100 * (-24 : ℚ)) = -2400 from by norm_num [round_eq]]
    decide
  have h3 : formatDb 0 = "0.00 dB" := by
    unfold formatDb
    rw [show round (100 * (0 : ℚ)) = 0 from by norm_num [round_eq]]
    decide
  have h4 : formatDb 6 = "6.00 dB" := by
    unfold formatDb
    rw [show round (100 * (6 : ℚ)) = 600 from by norm_num [round_eq]]
    decide
  have h5 : formatDb 12 = "12.00 dB" := by
    unfold formatDb
    rw [show round (100 * (12 : ℚ)) = 1200 from by norm_num [round_eq]]
    decide
  refine ⟨⟨-144, ?_, by norm_num⟩, ⟨-24, ?_, by norm_num⟩,
    ⟨0, ?_, by norm_num⟩, ⟨6, ?_, by norm_num⟩, ⟨12, ?_, by norm_num⟩⟩ <;>
    simp only [h1, h2, h3, h4, h5] <;>
    simp [parseDb, parseNumber, parseUnsigned, parseIntPart, parseFrac,
      stripDbSuffix, dropLeadingSpaces]

end MonitoringSenderLib
